import Mathlib

/-!
Verification of the react-map-gl camera interception layer and its utilities.

The development shallowly embeds the TypeScript sources:
  * the proxy transform (createProxyTransform: get/set handlers, the
    `_setZoom` special case, `isValidTransformProperty`),
  * `setGlobals` / `setRTLTextPlugin` from utils/set-globals.ts,
  * `arePointsEqual` from utils/deep-equal.ts.

JavaScript numbers are modelled by `JSNum` (finite rationals plus NaN and the
two infinities); JavaScript values flowing through the proxy are modelled by
`JSVal`, where objects carry a `ref` field standing for their heap identity
(the JS `===` / `!==` on objects compares references).  A transform is the
JS-object view the proxy actually manipulates: a map from property names to
values.
-/

/-- JavaScript numbers: a finite rational, NaN, Infinity or -Infinity. -/
inductive JSNum
  | nan
  | inf
  | ninf
  | fin (q : Rat)
deriving DecidableEq

/-- Number.isFinite on a JS number. -/
def JSNum.isFinite : JSNum → Bool
  | .fin _ => true
  | _ => false

/-- JavaScript strict equality on numbers: NaN is not equal to anything,
including itself. -/
def JSNum.jsEq : JSNum → JSNum → Bool
  | .fin p, .fin q => p == q
  | .inf, .inf => true
  | .ninf, .ninf => true
  | _, _ => false

/-- A LngLat-like coordinate object: the identity of its constructor function
and its two coordinates. -/
structure LngLat where
  ctorId : Nat
  lng : JSNum
  lat : JSNum
deriving DecidableEq

/-- JavaScript values seen by the proxy handlers.  `obj` carries a reference
(`ref`) modelling heap identity; `raw` is an opaque non-coordinate object or
function identified by a tag. -/
inductive JSVal
  | num (n : JSNum)
  | str (s : String)
  | obj (o : LngLat) (ref : Nat)
  | undef
  | nullv
  | raw (tag : Nat)
deriving DecidableEq

/-- JavaScript strict equality (`===`) on values: numbers compare by value
(NaN-aware), objects compare by reference. -/
def JSVal.jsEq : JSVal → JSVal → Bool
  | .num a, .num b => a.jsEq b
  | .str a, .str b => a == b
  | .obj a ra, .obj b rb => ra == rb && a == b
  | .undef, .undef => true
  | .nullv, .nullv => true
  | .raw a, .raw b => a == b
  | _, _ => false

/-- Number.isFinite applied to a possibly-absent property: an absent
(undefined) entry is not a finite number. -/
def numberIsFinite : Option JSNum → Bool
  | some n => n.isFinite
  | none => false

/-- The react view state entries read by the proxy transform
(`reactViewState` in create-proxy-transform): each entry is either absent
(undefined) or a JS number. -/
structure ViewState where
  longitude : Option JSNum := none
  latitude : Option JSNum := none
  zoom : Option JSNum := none
  pitch : Option JSNum := none
  bearing : Option JSNum := none
  elevation : Option JSNum := none

/-- The underlying Transform object as the proxy sees it: a JS object, i.e. a
map from property names to values. -/
abbrev Transform := String → JSVal

/-- Functional update of one property of a transform (`target[prop] = v`). -/
def setField (tr : Transform) (prop : String) (v : JSVal) : Transform :=
  fun p => if p == prop then v else tr p

/-- Transform.clone(): a fresh transform with the same view state values.  In
the value model a copy is the map itself. -/
def cloneTransform (tr : Transform) : Transform := tr

/-- An error reported through the injectable onError sink
(ProxyTransformError's operation and property). -/
structure ProxyError where
  operation : String
  property : String
deriving DecidableEq

/-- The state captured by the createProxyTransform closure: the
`internalUpdate` flag, the react view state, the controlled (committed)
transform, the proposed transform, plus the list of errors reported through
onError. -/
structure ProxyState where
  internalUpdate : Bool
  reactViewState : ViewState
  controlledTransform : Transform
  proposedTransform : Option Transform
  errors : List ProxyError

/-- Appends a report to the onError sink (`onError?.(error)`). -/
def reportError (s : ProxyState) (operation property : String) : ProxyState :=
  { s with errors := s.errors ++ [⟨operation, property⟩] }

/-- A proxy property key: JS proxy handlers receive a string or a symbol. -/
inductive PropKey
  | str (s : String)
  | sym (id : Nat)
deriving DecidableEq

/-- The `validProps` set of isValidTransformProperty. -/
def validProps : List String :=
  ["center", "_center", "zoom", "_zoom", "_seaLevelZoom", "pitch", "_pitch",
   "bearing", "rotation", "angle", "_centerAltitude", "_setZoom",
   "_translateCameraConstrained",
   "$reactViewState", "$proposedTransform", "$internalUpdate"]

/-- The `unproxiedMethods` set: Transform methods that populate derived
members and must run against both transforms. -/
def unproxiedMethods : List String :=
  ["_calcMatrices", "_calcFogMatrices", "_updateCameraState", "_updateSeaLevelZoom"]

/-- isValidTransformProperty from create-proxy-transform.  The source returns
`validProps.has(prop) || unproxiedMethods.has(prop) || typeof prop === 'string'`;
the final disjunct is `true` exactly when the key is a string. -/
def isValidTransformProperty : PropKey → Bool
  | .str s => validProps.contains s || unproxiedMethods.contains s || true
  | .sym _ => false

/-- Modelled from the spec: `isViewStateControlled` is imported from
`../utils/transform`, a module not present in src/.  Per the spec (sections 1
and 4.1) the view state is controlled when the application declares any
camera value, i.e. some camera entry of the react view state is a finite
number. -/
def isViewStateControlled (vs : ViewState) : Bool :=
  numberIsFinite vs.longitude || numberIsFinite vs.latitude ||
  numberIsFinite vs.zoom || numberIsFinite vs.pitch || numberIsFinite vs.bearing

/-- The controlled-value computation of the proxy set handler (lines
computing `controlledValue` from `value`): returns `some cv` when an override
branch assigned a new controlled value, `none` when `controlledValue` is
still the very value (the same reference) that was written. -/
def overrideValue (s : ProxyState) (prop : String) (value : JSVal) : Option JSVal :=
  if prop == "center" || prop == "_center" then
    if numberIsFinite s.reactViewState.longitude || numberIsFinite s.reactViewState.latitude then
      match value with
      | .obj o r =>
        -- new lngLatValue.constructor(reactViewState.longitude ?? lngLatValue.lng,
        --                             reactViewState.latitude ?? lngLatValue.lat);
        -- the constructor call allocates a fresh object, modelled by a
        -- reference distinct from the operand's.
        some (.obj ⟨o.ctorId, s.reactViewState.longitude.getD o.lng,
                    s.reactViewState.latitude.getD o.lat⟩ (r + 1))
      | _ => none
    else none
  else if prop == "zoom" || prop == "_zoom" || prop == "_seaLevelZoom" then
    if numberIsFinite s.reactViewState.zoom then some (s.controlledTransform prop) else none
  else if prop == "_centerAltitude" then
    if numberIsFinite s.reactViewState.elevation then some (s.controlledTransform prop) else none
  else if prop == "pitch" || prop == "_pitch" then
    if numberIsFinite s.reactViewState.pitch then some (s.controlledTransform prop) else none
  else if prop == "bearing" || prop == "rotation" || prop == "angle" then
    if numberIsFinite s.reactViewState.bearing then some (s.controlledTransform prop) else none
  else none

/-- The guard `internalUpdate && controlledValue !== value` of the set
handler.  When no override branch fired, `controlledValue` is the written
reference itself and `!==` is false; otherwise the assigned value is compared
with JS strict inequality. -/
def divergedWrite (s : ProxyState) (prop : String) (value : JSVal) : Bool :=
  s.internalUpdate &&
    (match overrideValue s prop value with
     | none => false
     | some cv => !(cv.jsEq value))

/-- The camera-field part of the proxy set handler (after the `$`-property
branches): computes the controlled value, lazily clones the committed
transform into the proposed transform on divergence, records the attempted
value into the proposed transform during an internal update, and applies the
controlled value to the committed transform. -/
def proxySetCore (s : ProxyState) (prop : String) (value : JSVal) : ProxyState :=
  let controlledValue := (overrideValue s prop value).getD value
  -- proposedTransform = proposedTransform || controlledTransform.clone();
  let proposed1 : Option Transform :=
    if divergedWrite s prop value then
      some (s.proposedTransform.getD (cloneTransform s.controlledTransform))
    else s.proposedTransform
  -- if (internalUpdate && proposedTransform) { proposedTransform[prop] = value; }
  let proposed2 : Option Transform :=
    if s.internalUpdate then proposed1.map (fun t => setField t prop value) else proposed1
  { s with
    proposedTransform := proposed2,
    controlledTransform := setField s.controlledTransform prop controlledValue }

/-- The proxy set handler.  The three `$`-properties carry controller-level
payloads (a view state, a transform-or-null, a boolean) that are not JS
camera values; they are modelled by the dedicated operations
`setInternalUpdate`/`setProposedTransform` below and left untouched here.
Returns the new state and the handler's boolean result. -/
def proxySet (s : ProxyState) (prop : String) (value : JSVal) : ProxyState × Bool :=
  if isValidTransformProperty (.str prop) = false then
    (reportError s "set" prop, false)
  else if prop == "$reactViewState" || prop == "$proposedTransform" ||
          prop == "$internalUpdate" then
    (s, true)
  else
    (proxySetCore s prop value, true)

/-- The result of a proxy get. -/
inductive GetResult
  | val (v : JSVal)
  | viewState (vs : ViewState)
  | transformOpt (t : Option Transform)
  | flag (b : Bool)
  | boundMethod (name : String)
  | undef

/-- The guard of the `_translateCameraConstrained` clone block in the get
handler: `internalUpdate && prop === '_translateCameraConstrained' &&
isViewStateControlled(reactViewState)`. -/
def constrainedClone (s : ProxyState) (prop : String) : Bool :=
  s.internalUpdate && (prop == "_translateCameraConstrained") &&
    isViewStateControlled s.reactViewState

/-- The proxy get handler: validation, the `$`-properties, the `_setZoom`
special case, the `_translateCameraConstrained` lazy clone, unproxied
methods, and the proposed/controlled dispatch. -/
def proxyGet (s : ProxyState) (prop : String) : ProxyState × GetResult :=
  if isValidTransformProperty (.str prop) = false then
    (reportError s "get" prop, .undef)
  else if prop == "$reactViewState" then (s, .viewState s.reactViewState)
  else if prop == "$proposedTransform" then (s, .transformOpt s.proposedTransform)
  else if prop == "$internalUpdate" then (s, .flag s.internalUpdate)
  else if prop == "_setZoom" then (s, .boundMethod "_setZoom")
  else
    let s1 :=
      if constrainedClone s prop then
        { s with proposedTransform := some (s.proposedTransform.getD (cloneTransform s.controlledTransform)) }
      else s
    if unproxiedMethods.contains prop then (s1, .boundMethod prop)
    else if s1.internalUpdate && s1.proposedTransform.isSome then
      (s1, .val ((s1.proposedTransform.getD s1.controlledTransform) prop))
    else (s1, .val (s1.controlledTransform prop))

/-- The engine's own low-level Transform._setZoom: the wrapped engine is an
opaque collaborator; its zoom setter writes the zoom value into the
transform's backing `_zoom` slot. -/
def engineSetZoom (tr : Transform) (z : JSNum) : Transform :=
  setField tr "_zoom" (.num z)

/-- The closure returned by the get handler for `_setZoom`: rejects a
non-finite argument, forwards to the proposed transform during an internal
update when one exists, and forwards to the committed transform exactly when
zoom is not declared. -/
def setZoomMethod (s : ProxyState) (z : JSNum) : ProxyState :=
  if z.isFinite = false then reportError s "method" "_setZoom"
  else
    let s1 :=
      if s.internalUpdate && s.proposedTransform.isSome then
        { s with proposedTransform := s.proposedTransform.map (fun t => engineSetZoom t z) }
      else s
    if numberIsFinite s.reactViewState.zoom then s1
    else { s1 with controlledTransform := engineSetZoom s1.controlledTransform z }

/-- Sets the `$internalUpdate` flag (the controller's narrow surface). -/
def setInternalUpdate (s : ProxyState) (b : Bool) : ProxyState :=
  { s with internalUpdate := b }

/-- Sets the `$proposedTransform` slot (the controller's narrow surface). -/
def setProposedTransform (s : ProxyState) (t : Option Transform) : ProxyState :=
  { s with proposedTransform := t }

/-- An operation on the proxied transform: the controller's mutation
bracketing plus engine-driven field writes and reads. -/
inductive ProxyOp
  | beginUpdate
  | endUpdate
  | write (prop : String) (value : JSVal)
  | read (prop : String)

/-- Modelled from the spec: the controller code that brackets engine-driven
mutations (the Mapbox class) is not present in src/.  Per the spec it sets
`$internalUpdate` before the mutation and, at the end of the mutation, clears
`$internalUpdate` and discards `$proposedTransform` (spec section 3: the
proposed view "is discarded (set to none) at the end of the mutation"). -/
def stepOp (s : ProxyState) : ProxyOp → ProxyState
  | .beginUpdate => setInternalUpdate s true
  | .endUpdate => setProposedTransform (setInternalUpdate s false) none
  | .write prop value => (proxySet s prop value).1
  | .read prop => (proxyGet s prop).1

/-- Ghost instrumentation for the proposed-view emergence property:
`writeOverridden` records that some field write was overridden by a declared
value during the current mutation; `anyDivergence` additionally records a
`_translateCameraConstrained` access while the view state is controlled. -/
structure GhostFlags where
  writeOverridden : Bool
  anyDivergence : Bool
deriving DecidableEq

/-- One step of the proxied transform together with its ghost flags. -/
def stepG (s : ProxyState) (g : GhostFlags) : ProxyOp → ProxyState × GhostFlags
  | .beginUpdate => (stepOp s .beginUpdate, g)
  | .endUpdate => (stepOp s .endUpdate, ⟨false, false⟩)
  | .write prop value =>
      (stepOp s (.write prop value),
       ⟨g.writeOverridden || divergedWrite s prop value,
        g.anyDivergence || divergedWrite s prop value⟩)
  | .read prop =>
      (stepOp s (.read prop),
       ⟨g.writeOverridden, g.anyDivergence || constrainedClone s prop⟩)

/-- Runs a sequence of operations from a state and ghost flags. -/
def runOps : ProxyState → GhostFlags → List ProxyOp → ProxyState × GhostFlags
  | s, g, [] => (s, g)
  | s, g, op :: ops => runOps (stepG s g op).1 (stepG s g op).2 ops

/-- The transform with every property undefined. -/
def emptyTransform : Transform := fun _ => JSVal.undef

/-- A concrete state with declared zoom 14, committed zoom 14, and an
engine-driven mutation in progress. -/
def sTest : ProxyState :=
  { internalUpdate := true,
    reactViewState := { zoom := some (.fin 14) },
    controlledTransform := setField emptyTransform "zoom" (.num (.fin 14)),
    proposedTransform := none,
    errors := [] }

/-- The invariant relating the proxied state to its ghost flags: a proposed
transform exists exactly when an engine-driven mutation is in progress and a
divergence (an overridden field write, or a controlled
`_translateCameraConstrained` access) happened during it. -/
def ProxyInv (s : ProxyState) (g : GhostFlags) : Prop :=
  (g.anyDivergence = true → s.internalUpdate = true) ∧
  s.proposedTransform.isSome = (s.internalUpdate && g.anyDivergence)

/-- The numeric camera-field property names whose writes are overridden by a
declared zoom / pitch / bearing / elevation value. -/
def numericControlProps : List String :=
  ["zoom", "_zoom", "_seaLevelZoom", "pitch", "_pitch",
   "bearing", "rotation", "angle", "_centerAltitude"]

/-- All camera-field property names handled by the set handler's override
logic. -/
def cameraFieldProps : List String :=
  "center" :: "_center" :: numericControlProps

/-- The react view state entry controlling a numeric camera property. -/
def numericDeclaredFor (vs : ViewState) (prop : String) : Option JSNum :=
  if prop == "zoom" || prop == "_zoom" || prop == "_seaLevelZoom" then vs.zoom
  else if prop == "pitch" || prop == "_pitch" then vs.pitch
  else if prop == "bearing" || prop == "rotation" || prop == "angle" then vs.bearing
  else if prop == "_centerAltitude" then vs.elevation
  else none

/-- Whether a camera property has a declared value in the react view state
(for center, a declared finite longitude or latitude). -/
def hasDeclaredOverride (vs : ViewState) (prop : String) : Bool :=
  if prop == "center" || prop == "_center" then
    numberIsFinite vs.longitude || numberIsFinite vs.latitude
  else numberIsFinite (numericDeclaredFor vs prop)

/-- Initial state for the proposed-view traces: controlled zoom declared,
no mutation in progress, no proposed transform. -/
def c3State : ProxyState :=
  { internalUpdate := false,
    reactViewState := { zoom := some (.fin 14) },
    controlledTransform := emptyTransform,
    proposedTransform := none,
    errors := [] }

/-- State with committed zoom 5 declared as 5, outside any engine-driven
mutation (internalUpdate is false). -/
def c5State : ProxyState :=
  { internalUpdate := false,
    reactViewState := { zoom := some (.fin 5) },
    controlledTransform := setField emptyTransform "zoom" (.num (.fin 5)),
    proposedTransform := none,
    errors := [] }

/-- State whose declared longitude is present but NaN (per the spec's
sentinel convention, NaN means "not declared") while the declared latitude
is finite. -/
def c6State : ProxyState :=
  { internalUpdate := true,
    reactViewState := { longitude := some .nan, latitude := some (.fin (189/5)) },
    controlledTransform := emptyTransform,
    proposedTransform := none,
    errors := [] }

/-- State whose underlying transform holds an opaque value under a property
name far outside the recognized camera-field set. -/
def c4State : ProxyState :=
  { internalUpdate := false,
    reactViewState := {},
    controlledTransform := setField emptyTransform "someArbitraryProp" (.raw 7),
    proposedTransform := none,
    errors := [] }

/-- The RTLTextPlugin prop: a plugin URL string or `false` (disabled);
absent means the default URL. -/
inductive RTLSetting
  | url (s : String)
  | disabled
deriving DecidableEq

/-- The GlobalSettings props consumed by setGlobals: each of the five global
engine settings is an optional JS value; the RTL entries and the presence of
an onRTLPluginError handler are typed as in set-globals.ts. -/
structure GlobalSettings where
  baseApiUrl : Option JSVal := none
  maxParallelImageRequests : Option JSVal := none
  workerClass : Option JSVal := none
  workerCount : Option JSVal := none
  workerUrl : Option JSVal := none
  RTLTextPlugin : Option RTLSetting := none
  RTLPluginTimeout : Option Rat := none
  hasOnRTLPluginError : Bool := false

/-- validateGlobalSetting from set-globals.ts. -/
def validateGlobalSetting (key : String) (value : JSVal) : Bool :=
  if key == "maxParallelImageRequests" || key == "workerCount" then
    -- typeof value === 'number' && value > 0 && Number.isInteger(value)
    match value with
    | .num (.fin q) => decide (0 < q) && decide (q.den = 1)
    | _ => false
  else if key == "baseApiUrl" || key == "workerUrl" then
    -- typeof value === 'string' && value.length > 0
    match value with
    | .str s => decide (0 < s.length)
    | _ => false
  else if key == "workerClass" then
    -- value !== null && value !== undefined
    match value with
    | .nullv => false
    | .undef => false
    | _ => true
  else true

/-- The `globalSettings` key list iterated by setGlobals. -/
def globalSettingKeys : List String :=
  ["baseApiUrl", "maxParallelImageRequests", "workerClass", "workerCount", "workerUrl"]

/-- Looks up one of the five global settings in the props (`key in props`
and `props[key]`). -/
def settingValue (props : GlobalSettings) : String → Option JSVal
  | "baseApiUrl" => props.baseApiUrl
  | "maxParallelImageRequests" => props.maxParallelImageRequests
  | "workerClass" => props.workerClass
  | "workerCount" => props.workerCount
  | "workerUrl" => props.workerUrl
  | _ => none

/-- The callback an error report went to. -/
inductive Sink
  | onError
  | onRTLPluginError
deriving DecidableEq

/-- An error delivered through one of the injectable callbacks; `setting`
is the GlobalSettingsError's setting field. -/
structure Report where
  sink : Sink
  setting : String
deriving DecidableEq

/-- One iteration of the setGlobals settings loop: an absent key is skipped,
an invalid value is reported to onError, a valid one is assigned onto the
mapLib module object. -/
def applyGlobalSetting (mapLib : String → JSVal) (reports : List Report)
    (key : String) (pv : Option JSVal) : (String → JSVal) × List Report :=
  match pv with
  | none => (mapLib, reports)
  | some v =>
    if validateGlobalSetting key v then (setField mapLib key v, reports)
    else (mapLib, reports ++ [⟨.onError, key⟩])

/-- The full settings loop of setGlobals. -/
def applyGlobalSettings (mapLib : String → JSVal) (props : GlobalSettings) :
    (String → JSVal) × List Report :=
  List.foldl (fun acc key => applyGlobalSetting acc.1 acc.2 key (settingValue props key))
    (mapLib, []) globalSettingKeys

/-- The outcome of `Promise.race([loadPromise, timeoutPromise])`: the load
resolved first, the load rejected first, or the timeout fired first. -/
inductive RaceOutcome
  | loaded
  | failed (msg : String)
  | timedOut
deriving DecidableEq

/-- The asynchronous environment setRTLTextPlugin runs against: whether the
mapLib exposes the plugin API, the current plugin status, and which promise
wins the race. -/
structure RTLEnv where
  hasPluginAPI : Bool
  pluginStatus : String
  raceOutcome : RaceOutcome

/-- DEFAULT_RTL_PLUGIN_URL from set-globals.ts. -/
def DEFAULT_RTL_PLUGIN_URL : String :=
  "https://api.mapbox.com/mapbox-gl-js/plugins/mapbox-gl-rtl-text/v0.2.3/mapbox-gl-rtl-text.js"

/-- DEFAULT_RTL_TIMEOUT from set-globals.ts (10 seconds). -/
def DEFAULT_RTL_TIMEOUT : Rat := 10000

/-- The destructured `RTLTextPlugin = DEFAULT_RTL_PLUGIN_URL`: none means
disabled (`RTLTextPlugin === false`). -/
def rtlPluginUrl (props : GlobalSettings) : Option String :=
  match props.RTLTextPlugin with
  | none => some DEFAULT_RTL_PLUGIN_URL
  | some (.url s) => some s
  | some .disabled => none

/-- The destructured `RTLPluginTimeout = DEFAULT_RTL_TIMEOUT`. -/
def rtlTimeout (props : GlobalSettings) : Rat :=
  props.RTLPluginTimeout.getD DEFAULT_RTL_TIMEOUT

/-- The try block of setRTLTextPlugin: return early unless the plugin status
is 'unavailable', then await the race; a rejected load or a fired timeout is
a thrown error escaping the try block. -/
def setRTLTextPluginTry (props : GlobalSettings) (env : RTLEnv) : Except String Unit :=
  if env.pluginStatus != "unavailable" then .ok ()
  else
    match env.raceOutcome with
    | .loaded => .ok ()
    | .failed msg => .error msg
    | .timedOut =>
      .error ("RTL plugin loading timeout after " ++ toString (rtlTimeout props) ++ "ms")

/-- The catch block of setRTLTextPlugin: the rtlError is delivered to the
custom onRTLPluginError handler when one is provided, and then to the global
onError handler. -/
def rtlFailureReports (props : GlobalSettings) : List Report :=
  (if props.hasOnRTLPluginError then [⟨.onRTLPluginError, "RTLTextPlugin"⟩] else []) ++
    [⟨.onError, "RTLTextPlugin"⟩]

/-- setRTLTextPlugin from set-globals.ts: skip when disabled, report a
missing plugin API to onError, and wrap the racing try block in the catch
that converts any thrown error into callback reports.  The result is the
list of delivered reports; an `Except.error` would be an uncaught throw. -/
def setRTLTextPlugin (props : GlobalSettings) (env : RTLEnv) : Except String (List Report) :=
  match rtlPluginUrl props with
  | none => .ok []
  | some _ =>
    if env.hasPluginAPI = false then .ok [⟨.onError, "RTLTextPlugin"⟩]
    else
      match setRTLTextPluginTry props env with
      | .ok _ => .ok []
      | .error _ => .ok (rtlFailureReports props)

/-- setGlobals from set-globals.ts: the validated settings loop followed by
`setRTLTextPlugin(...).catch(() => {})`, whose rejections are swallowed so
setGlobals always returns normally. -/
def setGlobals (mapLib : String → JSVal) (props : GlobalSettings) (env : RTLEnv) :
    (String → JSVal) × List Report :=
  let applied := applyGlobalSettings mapLib props
  let rtl :=
    match setRTLTextPlugin props env with
    | .ok r => r
    | .error _ => []
  (applied.1, applied.2 ++ rtl)

/-- PointLike from the common types: an [x, y] array or a point object with
x and y members. -/
inductive PointLike
  | arr (x y : JSNum)
  | pt (x y : JSNum)
deriving DecidableEq

/-- The x extraction of arePointsEqual:
`Array.isArray(a) ? a[0] : a ? a.x : 0`. -/
def pointX : Option PointLike → JSNum
  | some (.arr x _) => x
  | some (.pt x _) => x
  | none => .fin 0

/-- The y extraction of arePointsEqual:
`Array.isArray(a) ? a[1] : a ? a.y : 0`. -/
def pointY : Option PointLike → JSNum
  | some (.arr _ y) => y
  | some (.pt _ y) => y
  | none => .fin 0

/-- arePointsEqual from utils/deep-equal.ts: `ax === bx && ay === by`. -/
def arePointsEqual (a b : Option PointLike) : Bool :=
  (pointX a).jsEq (pointX b) && (pointY a).jsEq (pointY b)

/-- Every string key passes isValidTransformProperty (the final
`typeof prop === 'string'` disjunct). -/
theorem isValidTransformProperty_str (p : String) :
    isValidTransformProperty (.str p) = true := by
  simp [isValidTransformProperty]

theorem proxySetCore_internalUpdate (s : ProxyState) (prop : String) (value : JSVal) :
    (proxySetCore s prop value).internalUpdate = s.internalUpdate := rfl

theorem proxySetCore_proposed_isSome (s : ProxyState) (prop : String) (value : JSVal) :
    (proxySetCore s prop value).proposedTransform.isSome =
      (divergedWrite s prop value || s.proposedTransform.isSome) := by
  unfold proxySetCore
  cases h : divergedWrite s prop value <;>
    cases hI : s.internalUpdate <;>
      simp [h, hI, Option.isSome_map]

theorem proxySet_internalUpdate (s : ProxyState) (prop : String) (value : JSVal) :
    (proxySet s prop value).1.internalUpdate = s.internalUpdate := by
  unfold proxySet
  simp only [isValidTransformProperty_str]
  by_cases h1 : prop == "$reactViewState" <;>
    by_cases h2 : prop == "$proposedTransform" <;>
      by_cases h3 : prop == "$internalUpdate" <;>
        simp [h1, h2, h3, proxySetCore_internalUpdate, reportError]

theorem divergedWrite_dollar (s : ProxyState) (prop : String) (value : JSVal)
    (h : prop = "$reactViewState" ∨ prop = "$proposedTransform" ∨ prop = "$internalUpdate") :
    divergedWrite s prop value = false := by
  rcases h with rfl | rfl | rfl <;> simp [divergedWrite, overrideValue]

theorem proxySet_proposed_isSome (s : ProxyState) (prop : String) (value : JSVal) :
    (proxySet s prop value).1.proposedTransform.isSome =
      (divergedWrite s prop value || s.proposedTransform.isSome) := by
  unfold proxySet
  simp only [isValidTransformProperty_str]
  by_cases h1 : prop == "$reactViewState"
  · simp [h1, divergedWrite_dollar s prop value (Or.inl (by simpa using h1))]
  by_cases h2 : prop == "$proposedTransform"
  · simp [h1, h2, divergedWrite_dollar s prop value (Or.inr (Or.inl (by simpa using h2)))]
  by_cases h3 : prop == "$internalUpdate"
  · simp [h1, h2, h3, divergedWrite_dollar s prop value (Or.inr (Or.inr (by simpa using h3)))]
  simp [h1, h2, h3, proxySetCore_proposed_isSome]

theorem proxyGet_fst (s : ProxyState) (prop : String) :
    (proxyGet s prop).1 =
      (if constrainedClone s prop then
        { s with proposedTransform := some (s.proposedTransform.getD (cloneTransform s.controlledTransform)) }
      else s) := by
  unfold proxyGet
  simp only [isValidTransformProperty_str]
  by_cases h1 : prop == "$reactViewState"
  · have e : prop = "$reactViewState" := by simpa using h1
    subst e
    simp [constrainedClone]
  by_cases h2 : prop == "$proposedTransform"
  · have e : prop = "$proposedTransform" := by simpa using h2
    subst e
    simp [constrainedClone]
  by_cases h3 : prop == "$internalUpdate"
  · have e : prop = "$internalUpdate" := by simpa using h3
    subst e
    simp [constrainedClone]
  by_cases h4 : prop == "_setZoom"
  · have e : prop = "_setZoom" := by simpa using h4
    subst e
    simp [constrainedClone]
  simp only [Bool.not_eq_true] at h1 h2 h3 h4
  cases h5 : constrainedClone s prop <;>
    simp only [h1, h2, h3, h4, h5, Bool.false_eq_true, if_false, if_true, ite_true, ite_false] <;>
      (repeat' split) <;> first
      | rfl
      | (exfalso; simp_all)

theorem proxyGet_internalUpdate (s : ProxyState) (prop : String) :
    (proxyGet s prop).1.internalUpdate = s.internalUpdate := by
  rw [proxyGet_fst]
  cases h : constrainedClone s prop <;> simp

theorem proxyGet_proposed_isSome (s : ProxyState) (prop : String) :
    (proxyGet s prop).1.proposedTransform.isSome =
      (constrainedClone s prop || s.proposedTransform.isSome) := by
  rw [proxyGet_fst]
  cases h : constrainedClone s prop <;> simp

/-- The divergence guards are conjunctions whose first operand is the
`internalUpdate` flag. -/
theorem divergedWrite_internalUpdate (s : ProxyState) (prop : String) (value : JSVal)
    (h : divergedWrite s prop value = true) : s.internalUpdate = true := by
  unfold divergedWrite at h
  exact (Bool.and_eq_true_iff.mp h).1

theorem constrainedClone_internalUpdate (s : ProxyState) (prop : String)
    (h : constrainedClone s prop = true) : s.internalUpdate = true := by
  unfold constrainedClone at h
  exact (Bool.and_eq_true_iff.mp (Bool.and_eq_true_iff.mp h).1).1


theorem stepG_inv (s : ProxyState) (g : GhostFlags) (op : ProxyOp)
    (h : ProxyInv s g) : ProxyInv (stepG s g op).1 (stepG s g op).2 := by
  obtain ⟨h1, h2⟩ := h
  cases op with
  | beginUpdate =>
    refine ⟨fun _ => rfl, ?_⟩
    cases hg : g.anyDivergence with
    | false =>
      simp only [stepG, stepOp, setInternalUpdate]
      rw [hg] at h2
      simp only [Bool.and_false] at h2
      simp [h2, hg]
    | true =>
      have := h1 hg
      simp only [stepG, stepOp, setInternalUpdate]
      rw [hg, this] at h2
      simp [h2, hg]
  | endUpdate =>
    exact ⟨fun hc => by simp [stepG] at hc,
      by simp [stepG, stepOp, setProposedTransform, setInternalUpdate]⟩
  | write prop value =>
    constructor
    · intro hc
      simp only [stepG] at hc ⊢
      rw [stepOp, proxySet_internalUpdate]
      simp only [Bool.or_eq_true] at hc
      rcases hc with hc | hc
      · exact h1 hc
      · exact divergedWrite_internalUpdate s prop value hc
    · simp only [stepG, stepOp]
      rw [proxySet_proposed_isSome, proxySet_internalUpdate, h2]
      cases hd : divergedWrite s prop value
      · simp
      · have := divergedWrite_internalUpdate s prop value hd
        simp [this]
  | read prop =>
    constructor
    · intro hc
      simp only [stepG] at hc ⊢
      rw [stepOp, proxyGet_internalUpdate]
      simp only [Bool.or_eq_true] at hc
      rcases hc with hc | hc
      · exact h1 hc
      · exact constrainedClone_internalUpdate s prop hc
    · simp only [stepG, stepOp]
      rw [proxyGet_proposed_isSome, proxyGet_internalUpdate, h2]
      cases hd : constrainedClone s prop
      · simp
      · have := constrainedClone_internalUpdate s prop hd
        simp [this]

theorem runOps_inv (ops : List ProxyOp) :
    ∀ (s : ProxyState) (g : GhostFlags), ProxyInv s g →
      ProxyInv (runOps s g ops).1 (runOps s g ops).2 := by
  induction ops with
  | nil => intro s g h; exact h
  | cons op rest ih =>
    intro s g h
    exact ih _ _ (stepG_inv s g op h)

theorem runOps_append (l1 l2 : List ProxyOp) :
    ∀ (s : ProxyState) (g : GhostFlags),
      runOps s g (l1 ++ l2) = runOps (runOps s g l1).1 (runOps s g l1).2 l2 := by
  induction l1 with
  | nil => intro s g; rfl
  | cons op rest ih =>
    intro s g
    simp only [List.cons_append, runOps]
    exact ih _ _

/-- C1: for every numeric camera field (zoom, pitch, bearing, center
altitude) whose declared value in the react view state is a finite number,
an engine-driven write through the set handler leaves the committed value
unchanged, and therefore, since the committed value equalled the declared
value before the write, it still equals the declared value afterwards. -/
theorem proxySet_declared_field_supremacy
    (s : ProxyState) (prop : String) (value : JSVal) (d : JSNum)
    (hmem : prop ∈ numericControlProps)
    (hdec : numericDeclaredFor s.reactViewState prop = some d)
    (hfin : d.isFinite = true)
    (hint : s.internalUpdate = true)
    (hcom : s.controlledTransform prop = .num d) :
    (proxySet s prop value).1.controlledTransform prop = s.controlledTransform prop ∧
    (proxySet s prop value).1.controlledTransform prop = .num d := by
  have key : (proxySet s prop value).1.controlledTransform prop = s.controlledTransform prop := by
    fin_cases hmem <;>
      · simp only [numericDeclaredFor] at hdec
        simp_all [proxySet, isValidTransformProperty_str, proxySetCore, overrideValue,
          numberIsFinite, setField, JSNum.isFinite]
  exact ⟨key, by rw [key, hcom]⟩

/-- C1 witness: with declared zoom 14 and committed zoom 14, an engine write
of zoom 15 leaves the committed zoom at 14. -/
theorem proxySet_declared_field_supremacy_witness :
    (proxySet sTest "zoom" (.num (.fin 15))).1.controlledTransform "zoom" =
      sTest.controlledTransform "zoom" ∧
    (proxySet sTest "zoom" (.num (.fin 15))).1.controlledTransform "zoom" = .num (.fin 14) :=
  proxySet_declared_field_supremacy sTest "zoom" (.num (.fin 15)) (.fin 14)
    (by decide) rfl rfl rfl (by decide)

/-- C2: for every camera field with no declared value, a write of value v
through the set handler during an engine-driven mutation stores v itself in
the committed transform. -/
theorem proxySet_uncontrolled_passthrough
    (s : ProxyState) (prop : String) (value : JSVal)
    (hmem : prop ∈ cameraFieldProps)
    (hdec : hasDeclaredOverride s.reactViewState prop = false)
    (hint : s.internalUpdate = true) :
    (proxySet s prop value).1.controlledTransform prop = value := by
  fin_cases hmem <;>
    · simp only [hasDeclaredOverride, numericDeclaredFor] at hdec
      simp_all [proxySet, isValidTransformProperty_str, proxySetCore, overrideValue,
        numberIsFinite, setField]

/-- C2 witness: with no declared pitch, an engine write of pitch 30 is
committed as 30. -/
theorem proxySet_uncontrolled_passthrough_witness :
    (proxySet sTest "pitch" (.num (.fin 30))).1.controlledTransform "pitch" = .num (.fin 30) :=
  proxySet_uncontrolled_passthrough sTest "pitch" (.num (.fin 30)) (by decide) rfl rfl

/-- C3 counterexample: after beginning an engine-driven mutation and merely
reading `_translateCameraConstrained` (no field write at all, hence no
overridden field write), a proposed transform exists — refuting the claim
that a proposed transform exists only if at least one field write was
overridden during the mutation. -/
theorem proposed_view_emergence_cex :
    (runOps c3State ⟨false, false⟩
        [.beginUpdate, .read "_translateCameraConstrained"]).1.internalUpdate = true ∧
    (runOps c3State ⟨false, false⟩
        [.beginUpdate, .read "_translateCameraConstrained"]).1.proposedTransform.isSome = true ∧
    (runOps c3State ⟨false, false⟩
        [.beginUpdate, .read "_translateCameraConstrained"]).2.writeOverridden = false := by
  exact ⟨rfl, rfl, rfl⟩

/-- C3 amended: a proposed transform exists iff an engine-driven mutation is
in progress and during it either a field write was overridden by a declared
value or `_translateCameraConstrained` was accessed while the view state is
controlled; it is discarded at the end of the mutation. -/
theorem proposed_view_emergence_amended (s0 : ProxyState) (ops : List ProxyOp)
    (h1 : s0.internalUpdate = false) (h2 : s0.proposedTransform = none) :
    ((runOps s0 ⟨false, false⟩ ops).1.proposedTransform.isSome =
      ((runOps s0 ⟨false, false⟩ ops).1.internalUpdate &&
       (runOps s0 ⟨false, false⟩ ops).2.anyDivergence)) ∧
    (runOps s0 ⟨false, false⟩ (ops ++ [ProxyOp.endUpdate])).1.proposedTransform = none := by
  have hinv : ProxyInv s0 ⟨false, false⟩ :=
    ⟨fun hc => by simp at hc, by simp [h1, h2]⟩
  have hmain := runOps_inv ops s0 ⟨false, false⟩ hinv
  refine ⟨hmain.2, ?_⟩
  rw [runOps_append]
  simp [runOps, stepG, stepOp, setProposedTransform, setInternalUpdate]

/-- C3 amended witness: the amended equivalence evaluated on a concrete
trace. -/
theorem proposed_view_emergence_amended_witness :
    ((runOps c3State ⟨false, false⟩ [ProxyOp.beginUpdate]).1.proposedTransform.isSome =
      ((runOps c3State ⟨false, false⟩ [ProxyOp.beginUpdate]).1.internalUpdate &&
       (runOps c3State ⟨false, false⟩ [ProxyOp.beginUpdate]).2.anyDivergence)) ∧
    (runOps c3State ⟨false, false⟩
        ([ProxyOp.beginUpdate] ++ [ProxyOp.endUpdate])).1.proposedTransform = none :=
  proposed_view_emergence_amended c3State [ProxyOp.beginUpdate] rfl rfl

/-- C5 counterexample: with no engine-driven mutation in progress but zoom
declared (5), a write of zoom 10 through the set handler is NOT accepted:
the committed zoom stays 5 — refuting the claim that outside a mutation
every camera write is accepted regardless of declared values. -/
theorem programmatic_write_override_cex :
    (proxySet c5State "zoom" (.num (.fin 10))).1.controlledTransform "zoom" = .num (.fin 5) ∧
    (proxySet c5State "zoom" (.num (.fin 10))).1.controlledTransform "zoom" ≠ .num (.fin 10) := by
  exact ⟨rfl, by decide⟩

/-- C5 amended: when no engine-driven mutation is in progress, a write of a
camera field with no declared value is accepted into the committed
transform; a write to a numeric camera field with a declared finite value is
still overridden (the committed field keeps its current value), exactly as
during a mutation. -/
theorem programmatic_write_amended
    (s : ProxyState) (prop : String) (value : JSVal)
    (hint : s.internalUpdate = false)
    (hmem : prop ∈ cameraFieldProps) :
    (hasDeclaredOverride s.reactViewState prop = false →
      (proxySet s prop value).1.controlledTransform prop = value) ∧
    (prop ∈ numericControlProps → hasDeclaredOverride s.reactViewState prop = true →
      (proxySet s prop value).1.controlledTransform prop = s.controlledTransform prop) := by
  constructor
  · intro hdec
    fin_cases hmem <;>
      · simp only [hasDeclaredOverride, numericDeclaredFor] at hdec
        simp_all [proxySet, isValidTransformProperty_str, proxySetCore, overrideValue,
          numberIsFinite, setField]
  · intro hnum hdec
    fin_cases hnum <;>
      · simp only [hasDeclaredOverride, numericDeclaredFor] at hdec
        simp_all [proxySet, isValidTransformProperty_str, proxySetCore, overrideValue,
          numberIsFinite, setField]

/-- C5 amended witness: outside a mutation, an undeclared bearing write is
accepted, and a declared zoom write keeps the committed zoom. -/
theorem programmatic_write_amended_witness :
    ((hasDeclaredOverride c5State.reactViewState "bearing" = false →
      (proxySet c5State "bearing" (.num (.fin 90))).1.controlledTransform "bearing" = .num (.fin 90)) ∧
    ("bearing" ∈ numericControlProps → hasDeclaredOverride c5State.reactViewState "bearing" = true →
      (proxySet c5State "bearing" (.num (.fin 90))).1.controlledTransform "bearing" =
        c5State.controlledTransform "bearing")) ∧
    ((hasDeclaredOverride c5State.reactViewState "zoom" = false →
      (proxySet c5State "zoom" (.num (.fin 10))).1.controlledTransform "zoom" = .num (.fin 10)) ∧
    ("zoom" ∈ numericControlProps → hasDeclaredOverride c5State.reactViewState "zoom" = true →
      (proxySet c5State "zoom" (.num (.fin 10))).1.controlledTransform "zoom" =
        c5State.controlledTransform "zoom")) :=
  ⟨programmatic_write_amended c5State "bearing" (.num (.fin 90)) rfl (by decide),
   programmatic_write_amended c5State "zoom" (.num (.fin 10)) rfl (by decide)⟩

/-- C6 counterexample: writing center (-100, 0) while longitude is the
present-but-NaN sentinel (hence NOT a declared finite value) and latitude is
declared 37.8, the committed center's longitude becomes NaN — the nullish
coalescing `reactViewState.longitude ?? lngLatValue.lng` substitutes the
non-finite present entry instead of keeping the written longitude -100, so
the substitution is not restricted to declared (finite) coordinates as the
claim states. -/
theorem center_write_nan_substitution_cex :
    (proxySet c6State "center"
        (.obj ⟨3, .fin (-100), .fin 0⟩ 5)).1.controlledTransform "center" =
      .obj ⟨3, .nan, .fin (189/5)⟩ 6 ∧
    JSNum.nan ≠ JSNum.fin (-100) := by
  exact ⟨rfl, by decide⟩

/-- C6 amended: while the declared longitude or latitude is a finite number,
a write of center (or _center) of a coordinate object stores a coordinate
built with the written value's own constructor, with the declared longitude
and latitude substituted for the written coordinates wherever PRESENT
(nullish coalescing): a present entry is substituted even when it is not
finite, and only an absent entry falls back to the written coordinate. -/
theorem center_write_rewrite_amended
    (s : ProxyState) (prop : String) (o : LngLat) (r : Nat)
    (hmem : prop = "center" ∨ prop = "_center")
    (hdec : (numberIsFinite s.reactViewState.longitude ||
             numberIsFinite s.reactViewState.latitude) = true) :
    (proxySet s prop (.obj o r)).1.controlledTransform prop =
      .obj ⟨o.ctorId, s.reactViewState.longitude.getD o.lng,
            s.reactViewState.latitude.getD o.lat⟩ (r + 1) := by
  rcases hmem with rfl | rfl <;>
    simp [proxySet, isValidTransformProperty_str, proxySetCore, overrideValue, setField, hdec]

/-- C6 amended witness: with declared longitude -122.4 and latitude 37.8, a
center write is rewritten to the declared coordinates with the written
value's constructor. -/
theorem center_write_rewrite_amended_witness :
    (proxySet { internalUpdate := true,
                reactViewState := { longitude := some (.fin (-612/5)), latitude := some (.fin (189/5)) },
                controlledTransform := emptyTransform,
                proposedTransform := none,
                errors := [] } "center"
        (.obj ⟨3, .fin 1, .fin 2⟩ 5)).1.controlledTransform "center" =
      .obj ⟨3, .fin (-612/5), .fin (189/5)⟩ 6 :=
  center_write_rewrite_amended _ "center" ⟨3, .fin 1, .fin 2⟩ 5 (Or.inl rfl) (by decide)

/-- C7: for every camera-field property, a read through the get handler
returns the proposed transform's value while an engine-driven mutation is in
progress and a proposed transform exists, and the committed transform's
value otherwise; such reads do not change the proxy state. -/
theorem proxyGet_read_dispatch (s : ProxyState) (prop : String)
    (hmem : prop ∈ cameraFieldProps) :
    (∀ p, s.internalUpdate = true → s.proposedTransform = some p →
       (proxyGet s prop).2 = .val (p prop)) ∧
    ((s.internalUpdate && s.proposedTransform.isSome) = false →
       (proxyGet s prop).2 = .val (s.controlledTransform prop)) ∧
    (proxyGet s prop).1 = s := by
  have hd1 : (prop == "$reactViewState") = false := by fin_cases hmem <;> decide
  have hd2 : (prop == "$proposedTransform") = false := by fin_cases hmem <;> decide
  have hd3 : (prop == "$internalUpdate") = false := by fin_cases hmem <;> decide
  have hd4 : (prop == "_setZoom") = false := by fin_cases hmem <;> decide
  have hcc : constrainedClone s prop = false := by
    fin_cases hmem <;> simp [constrainedClone]
  have hnm : prop ∉ unproxiedMethods := by fin_cases hmem <;> decide
  refine ⟨?_, ?_, ?_⟩
  · intro p hI hP
    unfold proxyGet
    simp [isValidTransformProperty_str, hd1, hd2, hd3, hd4, hcc, hnm, hI, hP]
  · intro hF
    unfold proxyGet
    simp [isValidTransformProperty_str, hd1, hd2, hd3, hd4, hcc, hnm, hF]
  · rw [proxyGet_fst, hcc]
    simp

/-- C7 witness: the dispatch equalities evaluated on a concrete state. -/
theorem proxyGet_read_dispatch_witness :
    (∀ p, sTest.internalUpdate = true → sTest.proposedTransform = some p →
       (proxyGet sTest "zoom").2 = .val (p "zoom")) ∧
    ((sTest.internalUpdate && sTest.proposedTransform.isSome) = false →
       (proxyGet sTest "zoom").2 = .val (sTest.controlledTransform "zoom")) ∧
    (proxyGet sTest "zoom").1 = sTest :=
  proxyGet_read_dispatch sTest "zoom" (by decide)

/-- C8: the `_setZoom` method obtained from the get handler, called with a
finite z, writes z to the committed transform exactly when zoom is
undeclared, and additionally writes z to the proposed transform when an
engine-driven mutation is in progress and a proposed transform exists. -/
theorem setZoomMethod_bypass (s : ProxyState) (z : JSNum) (hz : z.isFinite = true) :
    ((proxyGet s "_setZoom").2 = .boundMethod "_setZoom") ∧
    (numberIsFinite s.reactViewState.zoom = true →
       (setZoomMethod s z).controlledTransform = s.controlledTransform) ∧
    (numberIsFinite s.reactViewState.zoom = false →
       (setZoomMethod s z).controlledTransform = engineSetZoom s.controlledTransform z) ∧
    (∀ p, s.internalUpdate = true → s.proposedTransform = some p →
       (setZoomMethod s z).proposedTransform = some (engineSetZoom p z)) ∧
    ((s.internalUpdate && s.proposedTransform.isSome) = false →
       (setZoomMethod s z).proposedTransform = s.proposedTransform) := by
  refine ⟨rfl, ?_, ?_, ?_, ?_⟩
  · intro hdecl
    unfold setZoomMethod
    cases hI : (s.internalUpdate && s.proposedTransform.isSome) <;> simp [hz, hdecl, hI]
  · intro hdecl
    unfold setZoomMethod
    cases hI : (s.internalUpdate && s.proposedTransform.isSome) <;> simp [hz, hdecl, hI]
  · intro p hI hP
    unfold setZoomMethod
    cases hd : numberIsFinite s.reactViewState.zoom <;> simp [hz, hI, hP, hd]
  · intro hF
    unfold setZoomMethod
    cases hd : numberIsFinite s.reactViewState.zoom <;> simp [hz, hF, hd]

/-- C8 witness: the bypass conditions evaluated at zoom 9 on a concrete
state with no declared zoom. -/
theorem setZoomMethod_bypass_witness :
    ((proxyGet c6State "_setZoom").2 = .boundMethod "_setZoom") ∧
    (numberIsFinite c6State.reactViewState.zoom = true →
       (setZoomMethod c6State (.fin 9)).controlledTransform = c6State.controlledTransform) ∧
    (numberIsFinite c6State.reactViewState.zoom = false →
       (setZoomMethod c6State (.fin 9)).controlledTransform =
         engineSetZoom c6State.controlledTransform (.fin 9)) ∧
    (∀ p, c6State.internalUpdate = true → c6State.proposedTransform = some p →
       (setZoomMethod c6State (.fin 9)).proposedTransform = some (engineSetZoom p (.fin 9))) ∧
    ((c6State.internalUpdate && c6State.proposedTransform.isSome) = false →
       (setZoomMethod c6State (.fin 9)).proposedTransform = c6State.proposedTransform) :=
  setZoomMethod_bypass c6State (.fin 9) rfl

/-- C4: the code contradicts the claim (and the stated purpose of its own
validation comment): because isValidTransformProperty ends in
`|| typeof prop === 'string'`, every string-named property passes
validation, so a get of the unrecognized property "someArbitraryProp" is
forwarded to the underlying transform (returning its value, not undefined),
a set of it reaches the underlying transform, and no error is reported to
the onError sink.  Only symbol keys are rejected. -/
theorem invalid_property_forwarding_bug :
    isValidTransformProperty (.str "someArbitraryProp") = true ∧
    (proxyGet c4State "someArbitraryProp").2 = .val (.raw 7) ∧
    (proxyGet c4State "someArbitraryProp").1.errors = [] ∧
    (proxySet c4State "someArbitraryProp" (.num (.fin 1))).2 = true ∧
    (proxySet c4State "someArbitraryProp"
        (.num (.fin 1))).1.controlledTransform "someArbitraryProp" = .num (.fin 1) ∧
    (proxySet c4State "someArbitraryProp" (.num (.fin 1))).1.errors = [] ∧
    isValidTransformProperty (.sym 0) = false :=
  ⟨rfl, rfl, rfl, rfl, rfl, rfl, rfl⟩

/-- C9: RTL plugin loading is best-effort.  With the default configuration
the race timeout is 10000 ms; setRTLTextPlugin never propagates a thrown
error (it always returns ok, for every environment); a mapLib lacking the
plugin API yields an onError report; a lost race (load rejection or timeout)
yields reports through onRTLPluginError (when provided) and onError; the
timeout branch of the race throws the configurable-timeout message into the
catch; and setGlobals appends exactly the RTL reports after the settings
loop, swallowing any rejection. -/
theorem setGlobals_rtl_best_effort (mapLib : Transform) (props : GlobalSettings) (env : RTLEnv)
    (hto : props.RTLPluginTimeout = none) :
    rtlTimeout props = 10000 ∧
    (∃ r, setRTLTextPlugin props env = .ok r) ∧
    (env.hasPluginAPI = false → rtlPluginUrl props ≠ none →
       setRTLTextPlugin props env = .ok [⟨.onError, "RTLTextPlugin"⟩]) ∧
    (env.hasPluginAPI = true → env.pluginStatus = "unavailable" →
       props.RTLTextPlugin = none → env.raceOutcome ≠ .loaded →
       setRTLTextPlugin props env = .ok (rtlFailureReports props) ∧
       (⟨.onError, "RTLTextPlugin"⟩ : Report) ∈ rtlFailureReports props ∧
       (props.hasOnRTLPluginError = true →
         (⟨.onRTLPluginError, "RTLTextPlugin"⟩ : Report) ∈ rtlFailureReports props)) ∧
    (env.pluginStatus = "unavailable" → env.raceOutcome = .timedOut →
       setRTLTextPluginTry props env =
         .error ("RTL plugin loading timeout after " ++ toString (rtlTimeout props) ++ "ms")) ∧
    (setGlobals mapLib props env).2 =
      (applyGlobalSettings mapLib props).2 ++
        (match setRTLTextPlugin props env with
         | .ok r => r
         | .error _ => []) := by
  refine ⟨by simp [rtlTimeout, hto, DEFAULT_RTL_TIMEOUT], ?_, ?_, ?_, ?_, rfl⟩
  · unfold setRTLTextPlugin
    cases hp : rtlPluginUrl props
    · exact ⟨[], rfl⟩
    · cases ha : env.hasPluginAPI
      · simp
      · simp
        cases ht : setRTLTextPluginTry props env <;> simp
  · intro ha hp
    unfold setRTLTextPlugin
    cases hu : rtlPluginUrl props
    · exact absurd hu hp
    · simp [ha]
  · intro ha hs hd hr
    refine ⟨?_, by simp [rtlFailureReports], fun hh => by simp [rtlFailureReports, hh]⟩
    unfold setRTLTextPlugin rtlPluginUrl
    rw [hd]
    simp only [ha, Bool.true_eq_false, if_false, ite_false]
    have : setRTLTextPluginTry props env = .error (match env.raceOutcome with
      | .failed msg => msg
      | _ => "RTL plugin loading timeout after " ++ toString (rtlTimeout props) ++ "ms") := by
      unfold setRTLTextPluginTry
      rw [hs]
      cases hrc : env.raceOutcome
      · exact absurd hrc hr
      · simp
      · simp
    rw [this]
  · intro hs hrc
    unfold setRTLTextPluginTry
    rw [hs, hrc]
    simp

/-- C9 witness: the best-effort conjunction evaluated with default props, an
onRTLPluginError handler, a plugin API whose status is unavailable, and a
race lost to the timeout. -/
theorem setGlobals_rtl_best_effort_witness :
    rtlTimeout { hasOnRTLPluginError := true } = 10000 ∧
    (∃ r, setRTLTextPlugin { hasOnRTLPluginError := true } ⟨true, "unavailable", .timedOut⟩ = .ok r) ∧
    ((⟨true, "unavailable", .timedOut⟩ : RTLEnv).hasPluginAPI = false →
       rtlPluginUrl { hasOnRTLPluginError := true } ≠ none →
       setRTLTextPlugin { hasOnRTLPluginError := true } ⟨true, "unavailable", .timedOut⟩ =
         .ok [⟨.onError, "RTLTextPlugin"⟩]) ∧
    ((⟨true, "unavailable", .timedOut⟩ : RTLEnv).hasPluginAPI = true →
       (⟨true, "unavailable", .timedOut⟩ : RTLEnv).pluginStatus = "unavailable" →
       GlobalSettings.RTLTextPlugin { hasOnRTLPluginError := true } = none →
       (⟨true, "unavailable", .timedOut⟩ : RTLEnv).raceOutcome ≠ .loaded →
       setRTLTextPlugin { hasOnRTLPluginError := true } ⟨true, "unavailable", .timedOut⟩ =
         .ok (rtlFailureReports { hasOnRTLPluginError := true }) ∧
       (⟨.onError, "RTLTextPlugin"⟩ : Report) ∈ rtlFailureReports { hasOnRTLPluginError := true } ∧
       (GlobalSettings.hasOnRTLPluginError { hasOnRTLPluginError := true } = true →
         (⟨.onRTLPluginError, "RTLTextPlugin"⟩ : Report) ∈
           rtlFailureReports { hasOnRTLPluginError := true })) ∧
    ((⟨true, "unavailable", .timedOut⟩ : RTLEnv).pluginStatus = "unavailable" →
       (⟨true, "unavailable", .timedOut⟩ : RTLEnv).raceOutcome = .timedOut →
       setRTLTextPluginTry { hasOnRTLPluginError := true } ⟨true, "unavailable", .timedOut⟩ =
         .error ("RTL plugin loading timeout after " ++
           toString (rtlTimeout { hasOnRTLPluginError := true }) ++ "ms")) ∧
    (setGlobals emptyTransform { hasOnRTLPluginError := true } ⟨true, "unavailable", .timedOut⟩).2 =
      (applyGlobalSettings emptyTransform { hasOnRTLPluginError := true }).2 ++
        (match setRTLTextPlugin { hasOnRTLPluginError := true } ⟨true, "unavailable", .timedOut⟩ with
         | .ok r => r
         | .error _ => []) :=
  setGlobals_rtl_best_effort emptyTransform { hasOnRTLPluginError := true }
    ⟨true, "unavailable", .timedOut⟩ rfl

/-- Strict equality against the literal 0 holds exactly for the finite
number 0. -/
theorem jsEq_zero_iff (c : JSNum) : (JSNum.jsEq (.fin 0) c = true) ↔ c = .fin 0 := by
  cases c <;> simp [JSNum.jsEq]
  exact eq_comm

/-- C10: arePointsEqual treats an absent point as the origin: an undefined
argument compares exactly like the point (0, 0); in particular
arePointsEqual(undefined, [0, 0]) and arePointsEqual(undefined, (0, 0)) are
true, and arePointsEqual(undefined, p) is false exactly when p has a
coordinate other than 0 (NaN and the infinities count as nonzero, matching
strict equality). -/
theorem arePointsEqual_absent_origin :
    (∀ b, arePointsEqual none b = arePointsEqual (some (.pt (.fin 0) (.fin 0))) b) ∧
    arePointsEqual none (some (.arr (.fin 0) (.fin 0))) = true ∧
    arePointsEqual none (some (.pt (.fin 0) (.fin 0))) = true ∧
    (∀ x y,
      (arePointsEqual none (some (.arr x y)) = false ↔ (x ≠ .fin 0 ∨ y ≠ .fin 0)) ∧
      (arePointsEqual none (some (.pt x y)) = false ↔ (x ≠ .fin 0 ∨ y ≠ .fin 0))) := by
  refine ⟨fun b => rfl, rfl, rfl, fun x y => ?_⟩
  have key : ((JSNum.jsEq (.fin 0) x && JSNum.jsEq (.fin 0) y) = false ↔
      (x ≠ .fin 0 ∨ y ≠ .fin 0)) := by
    rw [Bool.and_eq_false_iff]
    constructor
    · rintro (hf | hf)
      · exact Or.inl (fun he => by rw [he] at hf; simp [JSNum.jsEq] at hf)
      · exact Or.inr (fun he => by rw [he] at hf; simp [JSNum.jsEq] at hf)
    · rintro (hf | hf)
      · exact Or.inl (by
          cases hx : JSNum.jsEq (.fin 0) x
          · rfl
          · exact absurd ((jsEq_zero_iff x).mp hx) hf)
      · exact Or.inr (by
          cases hy : JSNum.jsEq (.fin 0) y
          · rfl
          · exact absurd ((jsEq_zero_iff y).mp hy) hf)
  exact ⟨key, key⟩
